import Mathlib

/-!
Verification development for the HHVM gRPC binding core
(`src/php/ext/grpc/hhvm/channel.cpp`, `call_credentials.cpp`):
the channel-argument canonicalizer, the process-wide channel cache,
the channel handle lifecycle, and the plugin credential-metadata
registry and dispatcher, shallowly embedded as executable Lean
definitions with theorems about the behaviours the specification
describes.
-/

set_option autoImplicit false

namespace GrpcHhvm

/-! ## SHA-1 (model of the external `StringUtil::SHA1` hash primitive)

The binding fingerprints canonical argument strings with SHA-1 and
uses the lowercase hex digest as the cache key.  The hash itself is an
external collaborator (HHVM's `StringUtil::SHA1` with `raw = false`);
we model it concretely by the standard SHA-1 algorithm over bytes, so
that fingerprints of concrete inputs can be evaluated. -/

def mask32 (x : Nat) : Nat := x &&& 0xFFFFFFFF

def rotl32 (n x : Nat) : Nat := mask32 ((x <<< n) ||| (x >>> (32 - n)))

/-- SHA-1 padding: append `0x80`, zero bytes to reach 56 mod 64, then the
bit length as a 64-bit big-endian integer. -/
def sha1Pad (msg : List Nat) : List Nat :=
  let len := msg.length
  let bitLen := len * 8
  let zeros := (120 - ((len + 1) % 64)) % 64
  msg ++ [0x80] ++ List.replicate zeros 0 ++
    [(bitLen >>> 56) &&& 0xFF, (bitLen >>> 48) &&& 0xFF,
     (bitLen >>> 40) &&& 0xFF, (bitLen >>> 32) &&& 0xFF,
     (bitLen >>> 24) &&& 0xFF, (bitLen >>> 16) &&& 0xFF,
     (bitLen >>> 8) &&& 0xFF, bitLen &&& 0xFF]

/-- Group bytes into 32-bit big-endian words. -/
def bytesToWords : List Nat → List Nat
  | b0 :: b1 :: b2 :: b3 :: rest =>
      ((b0 <<< 24) ||| (b1 <<< 16) ||| (b2 <<< 8) ||| b3) :: bytesToWords rest
  | _ => []

/-- Split a byte list into 64-byte chunks (fuel-based recursion so the
kernel can evaluate it; the fuel is the list length, which bounds the
number of chunks). -/
def chunks64Aux : Nat → List Nat → List (List Nat)
  | 0, _ => []
  | _, [] => []
  | fuel + 1, a :: rest => ((a :: rest).take 64) :: chunks64Aux fuel ((a :: rest).drop 64)

def chunks64 (l : List Nat) : List (List Nat) := chunks64Aux l.length l

/-- Message-schedule extension: run `n` more steps of
`w[i] = rotl1 (w[i-3] xor w[i-8] xor w[i-14] xor w[i-16])`. -/
def sha1ExtendAux : Nat → Array Nat → Array Nat
  | 0, ws => ws
  | n + 1, ws =>
      let i := ws.size
      sha1ExtendAux n
        (ws.push (rotl32 1
          (ws.getD (i - 3) 0 ^^^ ws.getD (i - 8) 0 ^^^
           ws.getD (i - 14) 0 ^^^ ws.getD (i - 16) 0)))

def sha1Extend (w16 : List Nat) : Array Nat :=
  sha1ExtendAux 64 (Array.mk w16)

structure Sha1State where
  a : Nat
  b : Nat
  c : Nat
  d : Nat
  e : Nat
deriving Repr, DecidableEq

def sha1F (i b c d : Nat) : Nat :=
  if i < 20 then (b &&& c) ||| ((0xFFFFFFFF ^^^ b) &&& d)
  else if i < 40 then b ^^^ c ^^^ d
  else if i < 60 then (b &&& c) ||| (b &&& d) ||| (c &&& d)
  else b ^^^ c ^^^ d

def sha1K (i : Nat) : Nat :=
  if i < 20 then 0x5A827999
  else if i < 40 then 0x6ED9EBA1
  else if i < 60 then 0x8F1BBCDC
  else 0xCA62C1D6

def sha1Round (st : Sha1State) (iw : Nat × Nat) : Sha1State :=
  let temp := mask32 (rotl32 5 st.a + sha1F iw.1 st.b st.c st.d + st.e + sha1K iw.1 + iw.2)
  ⟨temp, st.a, rotl32 30 st.b, st.c, st.d⟩

def sha1Start : Sha1State :=
  ⟨0x67452301, 0xEFCDAB89, 0x98BADCFE, 0x10325476, 0xC3D2E1F0⟩

def sha1Chunk (h : Sha1State) (chunk : List Nat) : Sha1State :=
  let ws := sha1Extend (bytesToWords chunk)
  let f := ws.toList.enum.foldl sha1Round h
  ⟨mask32 (h.a + f.a), mask32 (h.b + f.b), mask32 (h.c + f.c),
   mask32 (h.d + f.d), mask32 (h.e + f.e)⟩

/-- SHA-1 digest of a byte sequence as a 160-bit natural number. -/
def sha1Bytes (msg : List Nat) : Nat :=
  let h := (chunks64 (sha1Pad msg)).foldl sha1Chunk sha1Start
  h.a * 2 ^ 128 + h.b * 2 ^ 96 + h.c * 2 ^ 64 + h.d * 2 ^ 32 + h.e

def hexDigit (n : Nat) : Char :=
  if n < 10 then Char.ofNat (48 + n) else Char.ofNat (87 + n)

def natToHexAux : Nat → Nat → List Char → List Char
  | 0, _, acc => acc
  | k + 1, v, acc => natToHexAux k (v / 16) (hexDigit (v % 16) :: acc)

/-- The bytes of a string; the canonicalizer's inputs are ASCII
configuration strings, for which code points and bytes coincide. -/
def strBytes (s : String) : List Nat := s.toList.map Char.toNat

/-- Lowercase 40-hex-digit SHA-1 digest of a string: the model of
`StringUtil::SHA1(s, false)`. -/
def sha1Hex (s : String) : String :=
  String.mk (natToHexAux 40 (sha1Bytes (strBytes s)) [])

/-! ## PHP value model

HHVM `Variant` values, restricted to the constructors the embedded code
inspects (`isNull`, `isString`, `isInteger`, `isBoolean`, `isArray`,
`isObject`). -/

inductive PhpVal : Type where
  | vnull : PhpVal
  | vbool : Bool → PhpVal
  | vint : Int → PhpVal
  | vstr : String → PhpVal
  | varr : List (PhpVal × PhpVal) → PhpVal
  | vobj : Nat → PhpVal

/-- `Variant::toInt32()`: truncation of a PHP integer to a signed 32-bit
value. -/
def toInt32 (i : Int) : Int := (i + 2 ^ 31) % 2 ^ 32 - 2 ^ 31

/-! ## Argument canonicalizer (`ChannelArgs::init`, channel.cpp:118-229)

`ChannelArgs::init` walks the PHP array, rejecting any non-string key,
null value, or value that is neither integer nor string; integers are
canonicalized to the decimal string of their 32-bit truncation.  The
surviving pairs are sorted with the comparison lambda at
channel.cpp:184-198 (reproduced verbatim below as `argPairCmp`),
concatenated key‖value with no delimiter, and SHA-1-hashed into
`m_HashKey`.  On any rejection `destroyArgs` clears every field and
`init` returns `false`. -/

structure ChannelArgsState where
  phpData : List (String × String)
  concatenatedArgs : String
  hashKey : String
deriving Repr, DecidableEq

/-- The state `destroyArgs` (channel.cpp:213-229) leaves behind: no
args, empty PHP data, cleared hash key and concatenation. -/
def destroyedChannelArgs : ChannelArgsState := ⟨[], "", ""⟩

/-- One iteration of the conversion loop in `ChannelArgs::init`
(channel.cpp:134-180): `none` means the loop bails out (and the caller
destroys all partial state). -/
def convertPair : PhpVal × PhpVal → Option (String × String)
  | (PhpVal.vstr k, PhpVal.vint i) => some (k, toString (toInt32 i))
  | (PhpVal.vstr k, PhpVal.vstr s) => some (k, s)
  | _ => none

/-- `std::string` `operator<`: lexicographic comparison of the
character sequences. -/
def charListLt : List Char → List Char → Bool
  | [], [] => false
  | [], _ :: _ => true
  | _ :: _, [] => false
  | a :: as, b :: bs =>
      if a.toNat < b.toNat then true
      else if b.toNat < a.toNat then false
      else charListLt as bs

def strLt (s t : String) : Bool := charListLt s.toList t.toList

/-- The sort comparison lambda at channel.cpp:184-198, verbatim: it
compares the key of `pair1` with the value of `pair1` itself and, when
those are equal, the key of `pair2` with the value of `pair2` itself.
(The adjacent comment in the source says "sort the channel arguments
via key then value", which this lambda does not implement.) -/
def argPairCmp (pair1 pair2 : String × String) : Bool :=
  if pair1.1 != pair1.2 then strLt pair1.1 pair1.2 else strLt pair2.1 pair2.2

/-- Deterministic model of `std::sort` with a boolean comparison:
insertion sort. -/
def orderedInsertCmp (cmp : String × String → String × String → Bool)
    (a : String × String) : List (String × String) → List (String × String)
  | [] => [a]
  | b :: l => if cmp a b then a :: b :: l else b :: orderedInsertCmp cmp a l

def insertionSortCmp (cmp : String × String → String × String → Bool) :
    List (String × String) → List (String × String)
  | [] => []
  | a :: l => orderedInsertCmp cmp a (insertionSortCmp cmp l)

/-- The conversion loop of `ChannelArgs::init`: convert entries in
order, bailing out at the first invalid one (the caller then destroys
all partial state). -/
def convertAll : List (PhpVal × PhpVal) → Option (List (String × String))
  | [] => some []
  | kv :: rest =>
      match convertPair kv with
      | none => none
      | some p =>
          match convertAll rest with
          | none => none
          | some ps => some (p :: ps)

/-- `ChannelArgs::init` (channel.cpp:118-211): convert every (key,
value) entry, failing atomically if any entry is invalid; sort the
converted pairs with `argPairCmp`; concatenate key‖value with no
delimiter; SHA-1 the concatenation into the hash key.  Returns the
same `(bool, state)` observable as the C++ member function. -/
def channelArgsInit (argsArray : List (PhpVal × PhpVal)) : Bool × ChannelArgsState :=
  match convertAll argsArray with
  | none => (false, destroyedChannelArgs)
  | some pairs =>
      let sorted := insertionSortCmp argPairCmp pairs
      let concatenated := sorted.foldl (fun acc p => acc ++ p.1 ++ p.2) ""
      (true, ⟨pairs, concatenated, sha1Hex concatenated⟩)

/-- An entry the spec calls invalid: a null value, a non-string key, or
a value that is neither an integer nor a string. -/
def isBadEntry : PhpVal × PhpVal → Bool
  | (_, PhpVal.vnull) => true
  | (PhpVal.vstr _, PhpVal.vint _) => false
  | (PhpVal.vstr _, PhpVal.vstr _) => false
  | _ => true

/-! ## Channel handle (`ChannelData`, channel.cpp:63-101)

Underlying `grpc_channel*` resources are modelled as opaque numeric
identities; a null pointer is `none`.  Destruction of a resource is an
observable: functions that may call `grpc_channel_destroy` also return
the identity of the resource they destroyed, if any. -/

structure ChannelData where
  channel : Option Nat
  owned : Bool
  hashKey : String
deriving Repr, DecidableEq

/-- `ChannelData::destroy` (channel.cpp:91-101): when a resource is
held, destroy it only when owned, then null the pointer.  Returns the
updated handle and the resource handed to `grpc_channel_destroy`. -/
def channelDataDestroy (d : ChannelData) : ChannelData × Option Nat :=
  match d.channel with
  | some c => ({ d with channel := none }, if d.owned then some c else none)
  | none => (d, none)

/-- `ChannelData::init` (channel.cpp:81-89): destroy any existing
channel data, then adopt the new resource, ownership flag and hash
key.  Returns the new handle and the resource destroyed, if any. -/
def channelDataInit (d : ChannelData) (channel : Option Nat) (owned : Bool)
    (hashKey : String) : ChannelData × Option Nat :=
  ((⟨channel, owned, hashKey⟩ : ChannelData), (channelDataDestroy d).2)

/-- The exceptions the binding throws
(`SystemLib::throwInvalidArgumentExceptionObject` and
`SystemLib::throwBadMethodCallExceptionObject`). -/
inductive GrpcError : Type where
  | invalidArgument : String → GrpcError
  | badMethodCall : String → GrpcError
deriving Repr, DecidableEq

/-- `HHVM_METHOD(Channel, close)` (channel.cpp:532-545): throws
"Channel already closed." when the resource is already null (the
handle is left untouched, still closed); otherwise re-initializes the
handle with a null resource, marking it closed.  On success returns
the updated handle and the resource destroyed, if any. -/
def channelClose (d : ChannelData) : Except GrpcError (ChannelData × Option Nat) :=
  match d.channel with
  | none => Except.error (GrpcError.badMethodCall "Channel already closed.")
  | some _ => Except.ok (channelDataInit d none false "")

/-- `HHVM_METHOD(Channel, getTarget)` (channel.cpp:448-462).
`grpc_channel_get_target` is the external engine, a parameter. -/
def channelGetTarget (target : Nat → String) (d : ChannelData) :
    Except GrpcError String :=
  match d.channel with
  | none => Except.error (GrpcError.badMethodCall "Channel already closed.")
  | some c => Except.ok (target c)

/-- `HHVM_METHOD(Channel, getConnectivityState)` (channel.cpp:469-485).
`grpc_channel_check_connectivity_state` is the external engine. -/
def channelGetConnectivityState (connState : Nat → Bool → Int)
    (d : ChannelData) (tryToConnect : Bool) : Except GrpcError Int :=
  match d.channel with
  | none => Except.error (GrpcError.badMethodCall "Channel already closed.")
  | some c => Except.ok (connState c tryToConnect)

/-- `HHVM_METHOD(Channel, watchConnectivityState)`
(channel.cpp:494-526): after the closed-handle check the body is
commented out and the method returns `true`. -/
def channelWatchConnectivityState (d : ChannelData) (_lastState : Int) :
    Except GrpcError Bool :=
  match d.channel with
  | none => Except.error (GrpcError.badMethodCall "Channel already closed.")
  | some _ => Except.ok true

/-! ## Channel cache (`ChannelsCache`, channel.cpp:235-309)

The process-wide map from hash key to `grpc_channel*`.  The map is an
association list with the most recent insertion in front; `std::map`
key uniqueness corresponds to lookup-before-insert in `addChannel`. -/

abbrev ChannelMap := List (String × Nat)

/-- `ChannelsCache::getChannel` (channel.cpp:266-279). -/
def cacheGetChannel (m : ChannelMap) (key : String) : Option Nat :=
  m.lookup key

/-- `ChannelsCache::hasChannel` (channel.cpp:281-284). -/
def cacheHasChannel (m : ChannelMap) (key : String) : Bool :=
  (cacheGetChannel m key).isSome

/-- `ChannelsCache::addChannel` (channel.cpp:255-264): `emplace` into
the map; when the key is already present the map is unchanged and the
stored channel is returned with `false`, otherwise the new channel is
inserted and returned with `true`. -/
def cacheAddChannel (m : ChannelMap) (key : String) (ch : Nat) :
    (Bool × Nat) × ChannelMap :=
  match m.lookup key with
  | some existing => ((false, existing), m)
  | none => ((true, ch), (key, ch) :: m)

/-- `ChannelsCache::deleteChannel` (channel.cpp:286-298): when the key
is present, destroy the stored channel and erase the entry.  Returns
the updated map and the resource destroyed, if any. -/
def cacheDeleteChannel (m : ChannelMap) (key : String) : ChannelMap × Option Nat :=
  match m.lookup key with
  | some c => (m.eraseP (fun p => p.1 == key), some c)
  | none => (m, none)

/-- The `ChannelsCache` destructor (channel.cpp:239-247): destroy every
cached channel and clear the map.  Returns the emptied map and the
resources destroyed. -/
def cacheTeardown (m : ChannelMap) : ChannelMap × List Nat :=
  ([], m.map Prod.snd)

/-! ## Channel constructor (`HHVM_METHOD(Channel, __construct)`,
channel.cpp:335-442)

After extracting the credentials object and the `force_new` flag from
the arguments array, the constructor canonicalizes the remaining
arguments, computes the full cache key, and interacts with the cache.
Creation by the engine (`grpc_insecure_channel_create` or
`grpc_secure_channel_create`) is external; the resource it would
return is the `freshCh` parameter. -/

structure ConstructResult where
  handle : ChannelData
  cache : ChannelMap
  createdNew : Bool
  destroyedNew : Bool
deriving Repr, DecidableEq

/-- The miss/force path of the constructor (channel.cpp:396-440):
create a new channel, attempt `addChannel`; when the key was already
cached, destroy the just-created channel and adopt the stored one.
The handle is initialized with `owned = false` either way. -/
def channelConstructMissPath (key : String) (freshCh : Nat) (cache : ChannelMap) :
    ConstructResult :=
  let addResult := cacheAddChannel cache key freshCh
  if addResult.1.1 then
    ⟨⟨some freshCh, false, key⟩, addResult.2, true, false⟩
  else
    ⟨⟨some addResult.1.2, false, key⟩, addResult.2, true, true⟩

/-- The cache interaction of the constructor (channel.cpp:390-440):
`if (!force_new && pChannel)` reuse the cached channel with
`owned = false`, otherwise run the miss/force path.  (The
`deleteChannel` call in the `force_new` branch is commented out in the
source.) -/
def channelConstructWithKey (forceNew : Bool) (key : String) (freshCh : Nat)
    (cache : ChannelMap) : ConstructResult :=
  match forceNew, cacheGetChannel cache key with
  | false, some cached => ⟨⟨some cached, false, key⟩, cache, false, false⟩
  | _, _ => channelConstructMissPath key freshCh cache

/-- The full cache key (channel.cpp:385-389): SHA-1 of target ++
concatenated canonical args, with the credentials hash key appended
when credentials are present. -/
def fullCacheKey (target : String) (concatenatedArgs : String)
    (credHashKey : Option String) : String :=
  sha1Hex (target ++ concatenatedArgs) ++ credHashKey.getD ""

/-- `HHVM_METHOD(Channel, __construct)` after credentials / force_new
extraction: canonicalize the arguments (throwing on failure), compute
the full cache key, and run the cache interaction. -/
def channelConstruct (target : String) (argsArray : List (PhpVal × PhpVal))
    (credHashKey : Option String) (forceNew : Bool) (freshCh : Nat)
    (cache : ChannelMap) : Except GrpcError ConstructResult :=
  match channelArgsInit argsArray with
  | (false, _) => Except.error (GrpcError.invalidArgument "invalid channel arguments")
  | (true, st) =>
      Except.ok (channelConstructWithKey forceNew
        (fullCacheKey target st.concatenatedArgs credHashKey) freshCh cache)

/-! ## Plugin metadata registry and dispatcher
(`call_credentials.cpp`)

Credentials identities (`CallCredentialsData*`), slot identities
(targets of `std::shared_ptr<MetaDataInfo>`), thread identities,
completion-callback pointers and user-data pointers are opaque numeric
identities.  A `std::weak_ptr` is the identity of the slot it was
created from (`none` for the default-constructed, empty weak
reference); it resolves exactly when the slot is still in the heap of
live slots. -/

/-- `grpc_status_code` values the dispatcher produces. -/
inductive GrpcStatus : Type where
  | ok : GrpcStatus
  | unknown : GrpcStatus
  | invalidArgument : GrpcStatus
deriving Repr, DecidableEq

/-- Modelled from the spec: the `plugin_get_metadata_params` record
(declared in `call_credentials.h`, which is not among the sources).
The dispatcher constructs it either with six arguments
(different-thread path, call_credentials.cpp:321-323) or with the two
extra trailing arguments `true, result` (same-thread path,
call_credentials.cpp:312-315); per spec §4.5 the six-argument record
is the *unresolved* one (the "needs same-thread execution" flag set),
so the defaulted `completed` flag is `false`, and the defaulted
`result` is `false`. -/
structure PluginGetMetadataParams where
  ptr : Nat
  serviceUrl : String
  methodName : String
  authContext : Nat
  cb : Nat
  userData : Nat
  completed : Bool := false
  result : Bool := false
deriving Repr, DecidableEq

/-- Modelled from the spec: the `MetaDataInfo` slot contents (declared
in `call_credentials.h`, not among the sources).  Per spec §3
"MetadataRequestSlot" it carries the owning call thread and the
promise the dispatcher fulfills; the dispatcher reads it through the
accessors `threadId()` and `metadataPromise()`
(call_credentials.cpp:300-301).  The promise is `none` until
fulfilled. -/
structure MetaDataInfo where
  threadId : Nat
  promise : Option PluginGetMetadataParams
deriving Repr, DecidableEq

/-- The registry map (`m_MetaDataMap`): credentials identity to the
stored weak reference's slot identity. -/
abbrev MetadataRegistry := List (Nat × Nat)

/-- The live slots: slot identity to slot contents.  A slot leaves
this heap when its last strong reference is released. -/
abbrev SlotHeap := List (Nat × MetaDataInfo)

/-- `std::weak_ptr::lock`: the empty weak reference never resolves; a
weak reference to a slot resolves exactly when the slot is live. -/
def lockWeak (slots : SlotHeap) : Option Nat → Option MetaDataInfo
  | none => none
  | some slotId => slots.lookup slotId

/-- `PluginMetadataInfo::setInfo` (call_credentials.cpp:65-75):
`emplace`, overwriting the stored weak reference when the credentials
identity is already registered. -/
def setInfo (registry : MetadataRegistry) (credsId slotId : Nat) : MetadataRegistry :=
  match registry.lookup credsId with
  | some _ => registry.map (fun p => cond (p.1 == credsId) (credsId, slotId) p)
  | none => (credsId, slotId) :: registry

/-- `PluginMetadataInfo::getInfo` (call_credentials.cpp:77-94): when
the credentials identity is registered, move the stored weak reference
out and erase the entry; otherwise return the default-constructed
(empty) weak reference and leave the map unchanged. -/
def getInfo (registry : MetadataRegistry) (credsId : Nat) :
    Option Nat × MetadataRegistry :=
  match registry.lookup credsId with
  | some slotId => (some slotId, registry.eraseP (fun p => p.1 == credsId))
  | none => (none, registry)

/-- `PluginMetadataInfo::deleteInfo` (call_credentials.cpp:96-111). -/
def deleteInfo (registry : MetadataRegistry) (credsId : Nat) :
    Bool × MetadataRegistry :=
  match registry.lookup credsId with
  | some _ => (true, registry.eraseP (fun p => p.1 == credsId))
  | none => (false, registry)

/-- One invocation of the engine's completion callback
`cb(user_data, md, num_md, status, error_details)`: the metadata
entries delivered, their count, and the status code. -/
structure CompletionCall where
  mdEntries : List (String × String)
  numMd : Nat
  status : GrpcStatus
deriving Repr, DecidableEq

/-- `phpIsArray`: `Variant::isArray()`. -/
def phpIsArray : PhpVal → Bool
  | PhpVal.varr _ => true
  | _ => false

/-- `plugin_do_get_metadata` (call_credentials.cpp:246-284), the
same-thread invocation of the user callback.  The user callback
(`vm_call_user_func` on the stored PHP closure) is the parameter
`callback`, applied to the service URL and method name the code packs
into the argument object.  `MetadataArray::init` is defined in
`call.cpp`, which is not among the sources; modelled from the spec
(§4.5: a returned sequence is structurally validated and converted to
the metadata array) as the parameter `validate`, yielding the
produced metadata entries on success and `none` on validation
failure.  Returns the completion-callback invocation and the boolean
result `code == GRPC_STATUS_OK`. -/
def plugin_do_get_metadata
    (callback : String → String → PhpVal)
    (validate : List (PhpVal × PhpVal) → Option (List (String × String)))
    (serviceURL methodName : String) : CompletionCall × Bool :=
  match callback serviceURL methodName with
  | PhpVal.varr arr =>
      match validate arr with
      | none => (⟨[], 0, GrpcStatus.invalidArgument⟩, false)
      | some md => (⟨md, md.length, GrpcStatus.ok⟩, true)
  | _ => (⟨[], 0, GrpcStatus.unknown⟩, false)

/-- `std::promise::set_value` on the slot's promise: record the
fulfilled value in the slot. -/
def setPromise (slots : SlotHeap) (slotId : Nat)
    (params : PluginGetMetadataParams) : SlotHeap :=
  slots.map (fun p => cond (p.1 == slotId) (p.1, ⟨p.2.threadId, some params⟩) p)

/-- The observable outcome of one `plugin_get_metadata` dispatch. -/
structure DispatchResult where
  registry : MetadataRegistry
  slots : SlotHeap
  userCallbackInvoked : Bool
  completionCalls : List CompletionCall
deriving Repr, DecidableEq

/-- `plugin_get_metadata` (call_credentials.cpp:286-335), the
dispatcher entry point, called by the engine on `currentThread`:
consume the registration for the credentials identity; if the weak
reference does not resolve, return silently (no user callback, no
completion callback, no promise).  If it resolves and the owning call
thread is the current thread, run `plugin_do_get_metadata` (invoking
the user callback and the completion callback) and fulfill the
promise with a completed record; on a different thread, never invoke
the user callback and fulfill the promise with the unresolved
record. -/
def plugin_get_metadata
    (callback : String → String → PhpVal)
    (validate : List (PhpVal × PhpVal) → Option (List (String × String)))
    (ptr credsId : Nat)
    (ctxServiceUrl ctxMethodName : String)
    (authContext cb userData : Nat)
    (currentThread : Nat)
    (registry : MetadataRegistry) (slots : SlotHeap) : DispatchResult :=
  let consumed := getInfo registry credsId
  match consumed.1, lockWeak slots consumed.1 with
  | some slotId, some info =>
      if info.threadId = currentThread then
        let r := plugin_do_get_metadata callback validate ctxServiceUrl ctxMethodName
        ⟨consumed.2,
         setPromise slots slotId ⟨ptr, ctxServiceUrl, ctxMethodName, authContext, cb, userData, true, r.2⟩,
         true, [r.1]⟩
      else
        ⟨consumed.2,
         setPromise slots slotId ⟨ptr, ctxServiceUrl, ctxMethodName, authContext, cb, userData, false, false⟩,
         false, []⟩
  | _, _ => ⟨consumed.2, slots, false, []⟩

/-! ## Helper lemmas -/

theorem convertPair_none_of_bad (kv : PhpVal × PhpVal) (h : isBadEntry kv = true) :
    convertPair kv = none := by
  rcases kv with ⟨k, v⟩
  cases k <;> cases v <;> simp_all [isBadEntry, convertPair]

theorem convertAll_none_of_mem {l : List (PhpVal × PhpVal)} {kv : PhpVal × PhpVal}
    (hmem : kv ∈ l) (hnone : convertPair kv = none) : convertAll l = none := by
  induction l with
  | nil => cases hmem
  | cons a rest ih =>
      rcases List.mem_cons.mp hmem with h | h
      · subst h
        simp [convertAll, hnone]
      · cases hca : convertPair a
        · simp [convertAll, hca]
        · simp [convertAll, hca, ih h]

theorem lookup_none_of_not_mem_keys (l : List (Nat × Nat)) (k : Nat)
    (h : k ∉ l.map Prod.fst) : l.lookup k = none := by
  induction l with
  | nil => rfl
  | cons a rest ih =>
      simp only [List.map_cons, List.mem_cons, not_or] at h
      rcases a with ⟨k0, v0⟩
      simp only [List.lookup]
      have : (k == k0) = false := by
        simp [Ne.symm, h.1]
      rw [this]
      exact ih h.2

theorem lookup_eraseP_none (l : List (Nat × Nat)) (k : Nat)
    (hnd : (l.map Prod.fst).Nodup) :
    (l.eraseP (fun p => p.1 == k)).lookup k = none := by
  induction l with
  | nil => rfl
  | cons a rest ih =>
      rcases a with ⟨k0, v0⟩
      simp only [List.map_cons, List.nodup_cons] at hnd
      by_cases hk : k0 = k
      · subst hk
        rw [List.eraseP_cons_of_pos]
        · exact lookup_none_of_not_mem_keys rest k0 hnd.1
        · simp
      · rw [List.eraseP_cons_of_neg]
        · simp only [List.lookup]
          have : (k == k0) = false := by
            simp [Ne.symm, hk]
          rw [this]
          exact ih hnd.2
        · simp [hk]

/-! ## Claim theorems -/

/-- C9: an argument mapping containing a null value, a non-string key,
or a value that is neither an integer nor a string makes
`ChannelArgs::init` fail (`InvalidArgumentType`): it returns `false`
with all partial state destroyed, so in particular no fingerprint
(`hashKey` is cleared). -/
theorem c9_invalid_args_reject_atomically (argsArray : List (PhpVal × PhpVal))
    (h : ∃ kv ∈ argsArray, isBadEntry kv = true) :
    channelArgsInit argsArray = (false, destroyedChannelArgs) := by
  rcases h with ⟨kv, hmem, hbad⟩
  unfold channelArgsInit
  rw [convertAll_none_of_mem hmem (convertPair_none_of_bad kv hbad)]

/-- C9 witness: a mapping with a valid entry followed by a null value
is rejected atomically. -/
theorem c9_invalid_args_reject_atomically_witness :
    channelArgsInit
        [(PhpVal.vstr "grpc.primary_user_agent", PhpVal.vstr "x"),
         (PhpVal.vstr "grpc.default_authority", PhpVal.vnull)] =
      (false, destroyedChannelArgs) :=
  c9_invalid_args_reject_atomically _
    ⟨(PhpVal.vstr "grpc.default_authority", PhpVal.vnull), by simp, rfl⟩

set_option maxRecDepth 100000 in
/-- C1: the claim that permutations of the same (key, value) pairs
always canonicalize to the same fingerprint fails on the code: the
comparison lambda given to `std::sort` (channel.cpp:184-198, embedded
verbatim as `argPairCmp`) compares each pair with itself instead of
with the other pair, so it does not order pairs by (key, value) and
the sorted order — hence the concatenation and the SHA-1 fingerprint —
depends on the input order.  Here two permutations of the same two
valid pairs both canonicalize successfully but to different
fingerprints. -/
theorem c1_permutation_fingerprint_counterexample :
    [((PhpVal.vstr "a", PhpVal.vstr "b")), ((PhpVal.vstr "c", PhpVal.vstr "d"))].Perm
      [((PhpVal.vstr "c", PhpVal.vstr "d")), ((PhpVal.vstr "a", PhpVal.vstr "b"))] ∧
    (channelArgsInit [(PhpVal.vstr "a", PhpVal.vstr "b"), (PhpVal.vstr "c", PhpVal.vstr "d")]).1 = true ∧
    (channelArgsInit [(PhpVal.vstr "c", PhpVal.vstr "d"), (PhpVal.vstr "a", PhpVal.vstr "b")]).1 = true ∧
    (channelArgsInit [(PhpVal.vstr "a", PhpVal.vstr "b"), (PhpVal.vstr "c", PhpVal.vstr "d")]).2.hashKey ≠
      (channelArgsInit [(PhpVal.vstr "c", PhpVal.vstr "d"), (PhpVal.vstr "a", PhpVal.vstr "b")]).2.hashKey :=
  ⟨List.Perm.swap _ _ _, by decide, by decide, by decide⟩

/-- C2: `ChannelsCache::addChannel` with a key already present leaves
the map unchanged and returns the stored channel with `false`; the
constructor miss path then destroys the redundant just-built resource
and adopts the stored one.  With the key absent, the new channel is
inserted and returned as newly created. -/
theorem c2_add_channel_at_most_one_owned (cache : ChannelMap) (key : String) (ch : Nat) :
    (∀ stored, cache.lookup key = some stored →
        cacheAddChannel cache key ch = ((false, stored), cache) ∧
        channelConstructMissPath key ch cache =
          ⟨⟨some stored, false, key⟩, cache, true, true⟩) ∧
    (cache.lookup key = none →
        cacheAddChannel cache key ch = ((true, ch), (key, ch) :: cache) ∧
        channelConstructMissPath key ch cache =
          ⟨⟨some ch, false, key⟩, (key, ch) :: cache, true, false⟩) := by
  constructor
  · intro stored hs
    have hadd : cacheAddChannel cache key ch = ((false, stored), cache) := by
      unfold cacheAddChannel
      rw [hs]
    exact ⟨hadd, by simp [channelConstructMissPath, hadd]⟩
  · intro hn
    have hadd : cacheAddChannel cache key ch = ((true, ch), (key, ch) :: cache) := by
      unfold cacheAddChannel
      rw [hn]
    exact ⟨hadd, by simp [channelConstructMissPath, hadd]⟩

/-- C2 witness: with `"k"` cached as channel `5`, adding channel `7`
under `"k"` is rejected and adopted; adding under the absent key `"j"`
inserts. -/
theorem c2_add_channel_at_most_one_owned_witness :
    (cacheAddChannel [("k", 5)] "k" 7 = ((false, 5), [("k", 5)]) ∧
      channelConstructMissPath "k" 7 [("k", 5)] =
        ⟨⟨some 5, false, "k"⟩, [("k", 5)], true, true⟩) ∧
    (cacheAddChannel [("k", 5)] "j" 7 = ((true, 7), [("j", 7), ("k", 5)]) ∧
      channelConstructMissPath "j" 7 [("k", 5)] =
        ⟨⟨some 7, false, "j"⟩, [("j", 7), ("k", 5)], true, false⟩) :=
  ⟨(c2_add_channel_at_most_one_owned [("k", 5)] "k" 7).1 5 (by decide),
   (c2_add_channel_at_most_one_owned [("k", 5)] "j" 7).2 (by decide)⟩

/-- C7 counterexample: with `force_new` and a cached entry, the caller
does NOT become responsible for the extra new instance: the
constructor itself destroys the just-created resource (`7`) when
`addChannel` finds the existing entry, and the returned handle adopts
the cached resource (`5`), not the new one. -/
theorem c7_force_new_counterexample :
    (channelConstructWithKey true "k" 7 [("k", 5)]).destroyedNew = true ∧
    (channelConstructWithKey true "k" 7 [("k", 5)]).handle.channel ≠ some 7 ∧
    (channelConstructWithKey true "k" 7 [("k", 5)]).handle.channel = some 5 := by
  decide

/-- C7 as amended: with `force_new` and a cached entry for the key, a
new resource is created and the existing cache entry is never
replaced (the cache is unchanged); the constructor then destroys the
extra new resource itself when `addChannel` reports the existing
entry, and the returned handle adopts the cached resource. -/
theorem c7_force_new_amended (cache : ChannelMap) (key : String) (freshCh stored : Nat)
    (h : cache.lookup key = some stored) :
    channelConstructWithKey true key freshCh cache =
      ⟨⟨some stored, false, key⟩, cache, true, true⟩ := by
  have hadd : cacheAddChannel cache key freshCh = ((false, stored), cache) := by
    unfold cacheAddChannel
    rw [h]
  simp [channelConstructWithKey, cacheGetChannel, h, channelConstructMissPath, hadd]

/-- C7 witness for the amended claim. -/
theorem c7_force_new_amended_witness :
    channelConstructWithKey true "k" 7 [("k", 5)] =
      ⟨⟨some 5, false, "k"⟩, [("k", 5)], true, true⟩ :=
  c7_force_new_amended [("k", 5)] "k" 7 5 (by decide)

/-- C6: channel close idempotency and the closed-handle error.  On an
already-closed handle (null resource) every operation — `close`,
`getTarget`, `getConnectivityState`, `watchConnectivityState` —
reports "Channel already closed." and nothing is mutated or destroyed,
so the handle stays closed and closing again is safe; on an open
non-owned handle `close` marks the resource null without destroying
it. -/
theorem c6_close_idempotent (d : ChannelData) (target : Nat → String)
    (connState : Nat → Bool → Int) (tryToConnect : Bool) (lastState : Int) :
    (d.channel = none →
        channelClose d =
          Except.error (GrpcError.badMethodCall "Channel already closed.") ∧
        channelGetTarget target d =
          Except.error (GrpcError.badMethodCall "Channel already closed.") ∧
        channelGetConnectivityState connState d tryToConnect =
          Except.error (GrpcError.badMethodCall "Channel already closed.") ∧
        channelWatchConnectivityState d lastState =
          Except.error (GrpcError.badMethodCall "Channel already closed.")) ∧
    (∀ c, d.channel = some c → d.owned = false →
        channelClose d = Except.ok (⟨none, false, ""⟩, none)) := by
  constructor
  · intro hnone
    simp [channelClose, channelGetTarget, channelGetConnectivityState,
      channelWatchConnectivityState, hnone]
  · intro c hsome hown
    simp [channelClose, hsome, channelDataInit, channelDataDestroy, hown]

/-- C6 witness: a closed handle rejects all four operations with the
closed-channel error; an open non-owned handle closes without
destroying its resource. -/
theorem c6_close_idempotent_witness :
    (channelClose ⟨none, false, "k"⟩ =
        Except.error (GrpcError.badMethodCall "Channel already closed.") ∧
      channelGetTarget (fun _ => "t") ⟨none, false, "k"⟩ =
        Except.error (GrpcError.badMethodCall "Channel already closed.") ∧
      channelGetConnectivityState (fun _ _ => 0) ⟨none, false, "k"⟩ true =
        Except.error (GrpcError.badMethodCall "Channel already closed.") ∧
      channelWatchConnectivityState ⟨none, false, "k"⟩ 0 =
        Except.error (GrpcError.badMethodCall "Channel already closed.")) ∧
    channelClose ⟨some 3, false, "k"⟩ = Except.ok (⟨none, false, ""⟩, none) :=
  ⟨(c6_close_idempotent ⟨none, false, "k"⟩ (fun _ => "t") (fun _ _ => 0) true 0).1 rfl,
   (c6_close_idempotent ⟨some 3, false, "k"⟩ (fun _ => "t") (fun _ _ => 0) true 0).2 3 rfl rfl⟩

theorem channelConstructWithKey_handle_shape (forceNew : Bool) (key : String)
    (freshCh : Nat) (cache : ChannelMap) :
    ∃ c, (channelConstructWithKey forceNew key freshCh cache).handle =
      ⟨some c, false, key⟩ := by
  cases forceNew <;> cases hm : cacheGetChannel cache key <;>
    simp only [channelConstructWithKey, hm, channelConstructMissPath] <;>
    cases hadd : cacheAddChannel cache key freshCh with
  | _ =>
      first
      | exact ⟨_, rfl⟩
      | (rename_i pr m
         cases hp : pr.1 <;> simp only [hp] <;> exact ⟨_, rfl⟩)

/-- C10: every handle the constructor produces has `owned = false`, on
the cache-hit path as well as on the miss/insert and race-loser paths;
consequently neither handle destruction (`ChannelData::destroy`) nor
`close()` ever destroys the underlying resource.  The resource is
destroyed by the cache itself: `deleteChannel` destroys the stored
channel of a present key, and cache teardown destroys every stored
channel and clears the map. -/
theorem c10_constructed_handles_never_owned (forceNew : Bool) (key : String)
    (freshCh : Nat) (cache : ChannelMap) :
    ((channelConstructWithKey forceNew key freshCh cache).handle.owned = false ∧
      (channelDataDestroy (channelConstructWithKey forceNew key freshCh cache).handle).2 =
        none ∧
      channelClose (channelConstructWithKey forceNew key freshCh cache).handle =
        Except.ok (⟨none, false, ""⟩, none)) ∧
    (∀ (m : ChannelMap) (k : String) (c : Nat), m.lookup k = some c →
        cacheDeleteChannel m k = (m.eraseP (fun p => p.1 == k), some c)) ∧
    (∀ m : ChannelMap, cacheTeardown m = ([], m.map Prod.snd)) := by
  refine ⟨?_, ?_, fun _ => rfl⟩
  · obtain ⟨c, hc⟩ := channelConstructWithKey_handle_shape forceNew key freshCh cache
    rw [hc]
    refine ⟨rfl, rfl, ?_⟩
    simp [channelClose, channelDataInit, channelDataDestroy]
  · intro m k c hl
    unfold cacheDeleteChannel
    rw [hl]

/-- C10 witness: concrete runs of all three paths produce non-owned
handles whose destruction and close destroy nothing, and the cache
destroys stored channels on eviction and teardown. -/
theorem c10_constructed_handles_never_owned_witness :
    (((channelConstructWithKey false "k" 7 [("k", 5)]).handle.owned = false ∧
       (channelDataDestroy (channelConstructWithKey false "k" 7 [("k", 5)]).handle).2 =
         none ∧
       channelClose (channelConstructWithKey false "k" 7 [("k", 5)]).handle =
         Except.ok (⟨none, false, ""⟩, none)) ∧
     (∀ (m : ChannelMap) (k : String) (c : Nat), m.lookup k = some c →
         cacheDeleteChannel m k = (m.eraseP (fun p => p.1 == k), some c)) ∧
     (∀ m : ChannelMap, cacheTeardown m = ([], m.map Prod.snd))) ∧
    cacheDeleteChannel [("k", 5)] "k" = ([], some 5) :=
  ⟨c10_constructed_handles_never_owned false "k" 7 [("k", 5)],
   ((c10_constructed_handles_never_owned false "k" 7 [("k", 5)]).2.1 [("k", 5)] "k" 5
      (by decide)).trans (by decide)⟩

/-- C3: when the weak reference for the credentials identity does not
resolve (no registration, or the slot owning call already released its
strong references), `plugin_get_metadata` returns silently: the user
callback is not invoked, the completion callback is not invoked, no
promise is fulfilled (the slot heap is untouched), and no error is
raised — the registration is merely consumed. -/
theorem c3_abandoned_request_silent_noop
    (callback : String → String → PhpVal)
    (validate : List (PhpVal × PhpVal) → Option (List (String × String)))
    (ptr credsId : Nat) (ctxServiceUrl ctxMethodName : String)
    (authContext cb userData currentThread : Nat)
    (registry : MetadataRegistry) (slots : SlotHeap)
    (h : lockWeak slots (getInfo registry credsId).1 = none) :
    plugin_get_metadata callback validate ptr credsId ctxServiceUrl ctxMethodName
        authContext cb userData currentThread registry slots =
      ⟨(getInfo registry credsId).2, slots, false, []⟩ := by
  unfold plugin_get_metadata
  cases hg : (getInfo registry credsId).1 with
  | none => simp [hg]
  | some slotId =>
      rw [hg] at h
      simp [hg, h]

/-- C3 witness: a registration for credentials `1` pointing at slot
`10` that is no longer live is consumed without any callback. -/
theorem c3_abandoned_request_silent_noop_witness :
    plugin_get_metadata (fun _ _ => PhpVal.vnull) (fun _ => none) 2 1 "u" "m"
        3 4 5 6 [(1, 10)] [] =
      ⟨(getInfo [(1, 10)] 1).2, [], false, []⟩ :=
  c3_abandoned_request_silent_noop (fun _ _ => PhpVal.vnull) (fun _ => none)
    2 1 "u" "m" 3 4 5 6 [(1, 10)] [] (by decide)

theorem lookup_setPromise (slots : SlotHeap) (slotId : Nat)
    (params : PluginGetMetadataParams) (info : MetaDataInfo)
    (h : slots.lookup slotId = some info) :
    (setPromise slots slotId params).lookup slotId =
      some ⟨info.threadId, some params⟩ := by
  induction slots with
  | nil => simp [List.lookup] at h
  | cons a rest ih =>
      rcases a with ⟨k0, info0⟩
      by_cases hk : k0 = slotId
      · subst hk
        simp only [List.lookup, beq_self_eq_true] at h
        rw [Option.some_inj] at h
        subst h
        simp [setPromise, List.lookup]
      · have hbeq : (slotId == k0) = false := by
          simp [Ne.symm hk]
        have hbeq2 : (k0 == slotId) = false := by
          simp [hk]
        simp only [List.lookup, hbeq] at h
        simp only [setPromise, List.map_cons, hbeq2, cond_false]
        simp only [List.lookup, hbeq]
        exact ih h

/-- C4: when the weak reference resolves but the slot records an
owning-call thread different from the current one, the dispatcher
never invokes the user callback and invokes no completion callback on
this thread; instead it fulfills the slot promise with the unresolved
request record carrying the context (service URL, method name, auth
context), the completion callback and the user data, with the
completed flag `false` (needs same-thread execution), for the waiting
registering thread to execute. -/
theorem c4_cross_thread_publishes_unresolved_record
    (callback : String → String → PhpVal)
    (validate : List (PhpVal × PhpVal) → Option (List (String × String)))
    (ptr credsId : Nat) (ctxServiceUrl ctxMethodName : String)
    (authContext cb userData currentThread slotId : Nat) (info : MetaDataInfo)
    (registry : MetadataRegistry) (slots : SlotHeap)
    (hreg : (getInfo registry credsId).1 = some slotId)
    (hslot : slots.lookup slotId = some info)
    (hthread : info.threadId ≠ currentThread) :
    plugin_get_metadata callback validate ptr credsId ctxServiceUrl ctxMethodName
        authContext cb userData currentThread registry slots =
      ⟨(getInfo registry credsId).2,
       setPromise slots slotId
         ⟨ptr, ctxServiceUrl, ctxMethodName, authContext, cb, userData, false, false⟩,
       false, []⟩ ∧
    (setPromise slots slotId
        ⟨ptr, ctxServiceUrl, ctxMethodName, authContext, cb, userData, false, false⟩).lookup
        slotId =
      some ⟨info.threadId,
            some ⟨ptr, ctxServiceUrl, ctxMethodName, authContext, cb, userData, false, false⟩⟩ := by
  constructor
  · unfold plugin_get_metadata
    simp [hreg, lockWeak, hslot, hthread]
  · exact lookup_setPromise slots slotId _ info hslot

/-- C4 witness: credentials `1` registered to slot `10` owned by
thread `5`, dispatched on thread `6`: no callbacks run and the slot
promise holds the unresolved record. -/
theorem c4_cross_thread_publishes_unresolved_record_witness :
    plugin_get_metadata (fun _ _ => PhpVal.vnull) (fun _ => none) 2 1 "u" "m"
        3 4 9 6 [(1, 10)] [(10, ⟨5, none⟩)] =
      ⟨(getInfo [(1, 10)] 1).2,
       setPromise [(10, ⟨5, none⟩)] 10 ⟨2, "u", "m", 3, 4, 9, false, false⟩,
       false, []⟩ ∧
    (setPromise [(10, ⟨5, none⟩)] 10 ⟨2, "u", "m", 3, 4, 9, false, false⟩).lookup 10 =
      some ⟨5, some ⟨2, "u", "m", 3, 4, 9, false, false⟩⟩ :=
  c4_cross_thread_publishes_unresolved_record (fun _ _ => PhpVal.vnull)
    (fun _ => none) 2 1 "u" "m" 3 4 9 6 10 ⟨5, none⟩ [(1, 10)] [(10, ⟨5, none⟩)]
    (by decide) (by decide) (by decide)

/-- C5: the same-thread invocation `plugin_do_get_metadata` maps the
user callback result to the completion callback as follows: a null or
non-array return delivers empty metadata with status Unknown; an array
failing structural validation delivers empty metadata with status
InvalidArgument; a valid array delivers the produced metadata with
status Ok; and the boolean result is `true` exactly when the status
was Ok. -/
theorem c5_same_thread_status_mapping
    (callback : String → String → PhpVal)
    (validate : List (PhpVal × PhpVal) → Option (List (String × String)))
    (serviceURL methodName : String) :
    (phpIsArray (callback serviceURL methodName) = false →
        plugin_do_get_metadata callback validate serviceURL methodName =
          (⟨[], 0, GrpcStatus.unknown⟩, false)) ∧
    (∀ arr, callback serviceURL methodName = PhpVal.varr arr →
        validate arr = none →
        plugin_do_get_metadata callback validate serviceURL methodName =
          (⟨[], 0, GrpcStatus.invalidArgument⟩, false)) ∧
    (∀ arr md, callback serviceURL methodName = PhpVal.varr arr →
        validate arr = some md →
        plugin_do_get_metadata callback validate serviceURL methodName =
          (⟨md, md.length, GrpcStatus.ok⟩, true)) ∧
    ((plugin_do_get_metadata callback validate serviceURL methodName).2 = true ↔
        (plugin_do_get_metadata callback validate serviceURL methodName).1.status =
          GrpcStatus.ok) := by
  refine ⟨?_, ?_, ?_, ?_⟩
  · intro h
    unfold plugin_do_get_metadata
    cases hcv : callback serviceURL methodName <;>
      simp_all [phpIsArray]
  · intro arr hcv hv
    unfold plugin_do_get_metadata
    rw [hcv]
    simp [hv]
  · intro arr md hcv hv
    unfold plugin_do_get_metadata
    rw [hcv]
    simp [hv]
  · unfold plugin_do_get_metadata
    cases hcv : callback serviceURL methodName <;> try simp
    rename_i arr
    cases hv : validate arr <;> simp

/-- C5 witness: the three outcomes at concrete callbacks — a null
return, an array rejected by validation, and an array accepted with
one produced metadata entry — each applied through the theorem. -/
theorem c5_same_thread_status_mapping_witness :
    plugin_do_get_metadata (fun _ _ => PhpVal.vnull) (fun _ => some [("k", "v")])
        "u" "m" = (⟨[], 0, GrpcStatus.unknown⟩, false) ∧
    plugin_do_get_metadata (fun _ _ => PhpVal.varr []) (fun _ => none) "u" "m" =
      (⟨[], 0, GrpcStatus.invalidArgument⟩, false) ∧
    plugin_do_get_metadata (fun _ _ => PhpVal.varr [(PhpVal.vstr "k", PhpVal.vstr "v")])
        (fun _ => some [("k", "v")]) "u" "m" =
      (⟨[("k", "v")], 1, GrpcStatus.ok⟩, true) :=
  ⟨(c5_same_thread_status_mapping (fun _ _ => PhpVal.vnull)
      (fun _ => some [("k", "v")]) "u" "m").1 rfl,
   (c5_same_thread_status_mapping (fun _ _ => PhpVal.varr [])
      (fun _ => none) "u" "m").2.1 [] rfl rfl,
   (c5_same_thread_status_mapping
      (fun _ _ => PhpVal.varr [(PhpVal.vstr "k", PhpVal.vstr "v")])
      (fun _ => some [("k", "v")]) "u" "m").2.2.1
      [(PhpVal.vstr "k", PhpVal.vstr "v")] [("k", "v")] rfl rfl⟩

/-- C8: `getInfo` consumes the registration.  With distinct keys in
the registry, the first call returns exactly the stored weak reference
for the credentials identity (absent when none is registered) and
removes the entry; a second call with no intervening `setInfo` finds
nothing and returns the empty weak reference. -/
theorem c8_getInfo_consumes_registration (registry : MetadataRegistry) (credsId : Nat)
    (hnd : (registry.map Prod.fst).Nodup) :
    (getInfo registry credsId).1 = registry.lookup credsId ∧
    ((getInfo registry credsId).2).lookup credsId = none ∧
    (getInfo (getInfo registry credsId).2 credsId).1 = none := by
  unfold getInfo
  cases h : registry.lookup credsId with
  | none => simp [h]
  | some s =>
      have he := lookup_eraseP_none registry credsId hnd
      simp [h, he]

/-- C8 witness: with credentials `1` and `2` registered, two
consecutive `getInfo 1` calls return the stored reference then
absent. -/
theorem c8_getInfo_consumes_registration_witness :
    (getInfo [(1, 10), (2, 20)] 1).1 = some 10 ∧
    ((getInfo [(1, 10), (2, 20)] 1).2).lookup 1 = none ∧
    (getInfo (getInfo [(1, 10), (2, 20)] 1).2 1).1 = none :=
  ⟨((c8_getInfo_consumes_registration [(1, 10), (2, 20)] 1 (by decide)).1).trans (by decide),
   (c8_getInfo_consumes_registration [(1, 10), (2, 20)] 1 (by decide)).2.1,
   (c8_getInfo_consumes_registration [(1, 10), (2, 20)] 1 (by decide)).2.2⟩

end GrpcHhvm
